import Mathlib

/-!
Shallow embedding of the activity attestation system (src/src/main.rs):
a Groth16-over-BN254 demo that proves, without revealing the user's
commitment, that an activity record is bound to public inputs
(timestamp, activity digest), gated by a 30-day freshness policy.

Modelling conventions:
* `DateTime<Utc>` instants are integers of nanoseconds since the Unix
  epoch; `chrono`'s `.timestamp()` is floor division by 10^9 and
  `Duration::days(d)` is `d * 86400 * 10^9` nanoseconds.  Comparison of
  instants is integer comparison.
* BN254 scalar field elements (`Fr`) are canonical representatives:
  naturals reduced modulo the prime order `rBN`.
* The Groth16 backend (ark-groth16) is an external collaborator; it is
  modelled as an abstract structure of total functions, with `Option`
  for fallible calls (`None` = the Rust `Err` case).
* `ark_std::test_rng()` reseeds a generator from a fixed constant on
  every call; it is modelled as a function that ignores the ambient
  entropy it is handed, so determinism across calls is a theorem rather
  than a modelling accident.
-/

/-- Order of the BN254 scalar field `Fr` (the prime `r` of ark-bn254). -/
def rBN : ℕ := 21888242871839275222246405745257275088548364400416034343698204186575808495617

/-- A BN254 scalar field element, as its canonical representative in `[0, rBN)`. -/
abbrev Fr : Type := ℕ

/-- Interpret a byte list (most significant byte first) as a big-endian
unsigned integer, as an unbounded natural. -/
def beBytesToNat (bs : List ℕ) : ℕ :=
  bs.foldl (fun acc b => acc * 256 + b) 0

/-- Model of `Fr::from_be_bytes_mod_order`: interpret the bytes as a
big-endian unsigned integer while reducing modulo the field order at
every step (ark-ff reduces as it folds the bytes in). -/
def from_be_bytes_mod_order (bs : List ℕ) : Fr :=
  bs.foldl (fun acc b => (acc * 256 + b) % rBN) 0

/-- Model of `Fr::from(x: u64)`: the unsigned value reduced into the field. -/
def u64ToFr (x : ℕ) : Fr := x % rBN

/-- A `chrono::DateTime<Utc>` instant, as nanoseconds since the Unix epoch. -/
abbrev DateTimeUtc : Type := ℤ

/-- Model of `DateTime::timestamp()`: whole seconds since the epoch,
rounding towards negative infinity (chrono floors). -/
def timestampSecs (t : DateTimeUtc) : ℤ := Int.fdiv t 1000000000

/-- Model of `chrono::Duration::days(d)`, in nanoseconds. -/
def Duration.days (d : ℤ) : ℤ := d * 86400 * 1000000000

/-- The Rust cast `as u64` applied to an `i64` value: wrap modulo `2^64`. -/
def i64_as_u64 (x : ℤ) : ℕ := (x % (18446744073709551616 : ℤ)).toNat

/-- `ActivityData` (src/src/main.rs:12): one activity record to be attested. -/
structure ActivityData where
  timestamp : DateTimeUtc
  activity_hash : List ℕ
  user_commitment : List ℕ

/-- `ActivityCircuit` (src/src/main.rs:20): the relation instance, with
public inputs `timestamp` (a u64) and `activity_hash`, and private input
`user_commitment`. -/
structure ActivityCircuit where
  timestamp : ℕ
  activity_hash : Fr
  user_commitment : Fr

/-- `ActivityCircuit::new` (src/src/main.rs:30): convert the timestamp to
`u64` via `.timestamp() as u64` and reduce both 32-byte values into field
elements via `from_be_bytes_mod_order`. -/
def ActivityCircuit.new (timestamp : DateTimeUtc) (activity_hash user_commitment : List ℕ) :
    ActivityCircuit where
  timestamp := i64_as_u64 (timestampSecs timestamp)
  activity_hash := from_be_bytes_mod_order activity_hash
  user_commitment := from_be_bytes_mod_order user_commitment

/-- Modelled from the spec: the `ConstraintSynthesizer` implementation of
`ActivityCircuit` is not under src/ (only the struct and its callers are).
Per §3, the instance's public input vector is the ordered sequence
`[timestamp_as_field_element, activity_digest_as_field_element]`. -/
def ActivityCircuit.publicInputs (c : ActivityCircuit) : List Fr :=
  [u64ToFr c.timestamp, c.activity_hash]

/-- State of a deterministic random generator.  `ark_std::test_rng()`
produces one from a fixed seed. -/
abbrev RngState : Type := ℕ

/-- Model of `ark_std::test_rng()`: a generator reseeded from a fixed
constant on every call.  The parameter is the ambient entropy an
OS-backed generator would consume; `test_rng` ignores it, which is what
makes setup and proving deterministic. -/
def test_rng (entropy : ℕ) : RngState := 0

/-- The external Groth16 proof backend (ark-groth16), out of scope per the
spec and treated as a black box of total functions; `Option` models the
Rust `Result` (`none` = `Err`). -/
structure Groth16Backend where
  Params : Type
  VK : Type
  PVK : Type
  Proof : Type
  generate_random_parameters : ActivityCircuit → RngState → Option Params
  vkOf : Params → VK
  prepare_verifying_key : VK → PVK
  create_random_proof : ActivityCircuit → Params → RngState → Option Proof
  verify : PVK → Proof → List Fr → Option Bool

/-- `ActivityVerifier` (src/src/main.rs:51): holds the key pair produced by
the one-time setup. -/
structure ActivityVerifier (B : Groth16Backend) where
  proving_key : B.Params
  verifying_key : B.PVK

/-- `ActivityVerifier::new` (src/src/main.rs:58): run setup on a dummy
circuit built from `Utc::now()` and all-zero digests, with `test_rng()`.
The Rust code `.unwrap()`s the setup result; `none` models the panic. -/
def ActivityVerifier.new (B : Groth16Backend) (entropy : ℕ) (now : DateTimeUtc) :
    Option (ActivityVerifier B) :=
  let rng := test_rng entropy
  let circuit := ActivityCircuit.new now (List.replicate 32 0) (List.replicate 32 0)
  match B.generate_random_parameters circuit rng with
  | some params => some ⟨params, B.prepare_verifying_key (B.vkOf params)⟩
  | none => none

/-- `ActivityVerifier::generate_proof` (src/src/main.rs:79): build the
circuit from the record and invoke the prover with a fresh `test_rng()`;
backend failure is mapped to the static message. -/
def ActivityVerifier.generate_proof (B : Groth16Backend) (entropy : ℕ)
    (v : ActivityVerifier B) (ad : ActivityData) : Except String B.Proof :=
  let rng := test_rng entropy
  let circuit := ActivityCircuit.new ad.timestamp ad.activity_hash ad.user_commitment
  match B.create_random_proof circuit v.proving_key rng with
  | some p => .ok p
  | none => .error "Failed to generate proof"

/-- `ActivityVerifier::verify_proof` (src/src/main.rs:95): run the backend
verifier and collapse any backend error to `false` (`unwrap_or(false)`). -/
def ActivityVerifier.verify_proof (B : Groth16Backend) (v : ActivityVerifier B)
    (proof : B.Proof) (public_inputs : List Fr) : Bool :=
  (B.verify v.verifying_key proof public_inputs).getD false

/-- The public input vector `verify_activity` recomputes from the record
(src/src/main.rs:125-128): `[Fr::from(ts as u64), Fr::from_be_bytes_mod_order(hash)]`. -/
def verify_activity_public_inputs (ad : ActivityData) : List Fr :=
  [u64ToFr (i64_as_u64 (timestampSecs ad.timestamp)), from_be_bytes_mod_order ad.activity_hash]

/-- `ActivityVerifier::verify_activity` (src/src/main.rs:109), instrumented
with a count of proof-generation invocations (second component) so that
short-circuiting is observable.  The control flow mirrors the source: the
freshness gate runs first and returns `false` before any cryptographic
work; then a proof is generated (counted), generation failure returns
`false`; finally the backend verifier is run on the recomputed public
inputs. -/
def ActivityVerifier.verify_activity_traced (B : Groth16Backend) (entropy : ℕ)
    (v : ActivityVerifier B) (now : DateTimeUtc) (ad : ActivityData) : Bool × ℕ :=
  let one_month_ago := now - Duration.days 30
  if ad.timestamp < one_month_ago then
    (false, 0)
  else
    match ActivityVerifier.generate_proof B entropy v ad with
    | .error _ => (false, 1)
    | .ok proof =>
      (ActivityVerifier.verify_proof B v proof (verify_activity_public_inputs ad), 1)

/-- `ActivityVerifier::verify_activity`: the boolean the caller sees. -/
def ActivityVerifier.verify_activity (B : Groth16Backend) (entropy : ℕ)
    (v : ActivityVerifier B) (now : DateTimeUtc) (ad : ActivityData) : Bool :=
  (ActivityVerifier.verify_activity_traced B entropy v now ad).1

/-- State-passing form of the `&self` method `generate_proof`
(src/src/main.rs:79-92): the body never assigns to `self.proving_key` or
`self.verifying_key`, so the outgoing verifier state is the incoming one. -/
def ActivityVerifier.generate_proof_st (B : Groth16Backend) (entropy : ℕ)
    (v : ActivityVerifier B) (ad : ActivityData) :
    Except String B.Proof × ActivityVerifier B :=
  (ActivityVerifier.generate_proof B entropy v ad, v)

/-- State-passing form of the `&self` method `verify_proof`
(src/src/main.rs:95-106): no field of `self` is written. -/
def ActivityVerifier.verify_proof_st (B : Groth16Backend) (v : ActivityVerifier B)
    (proof : B.Proof) (public_inputs : List Fr) :
    Bool × ActivityVerifier B :=
  (ActivityVerifier.verify_proof B v proof public_inputs, v)

/-- State-passing form of the `&self` method `verify_activity`
(src/src/main.rs:109-132): no field of `self` is written. -/
def ActivityVerifier.verify_activity_st (B : Groth16Backend) (entropy : ℕ)
    (v : ActivityVerifier B) (now : DateTimeUtc) (ad : ActivityData) :
    Bool × ActivityVerifier B :=
  (ActivityVerifier.verify_activity B entropy v now ad, v)

/-- Modelled from the spec: the `ConstraintSynthesizer` implementation of
`ActivityCircuit` is not under src/, so the backend's dependence on the
circuit cannot be read off the source.  Per §4.3 the relation shape is
content-independent, and Groth16 keys depend only on the constraint
matrices (shape) and the randomness, so setup yields the same parameters
for any two instances fed the same generator state. -/
def SetupShapeIndependent (B : Groth16Backend) : Prop :=
  ∀ c c' rng, B.generate_random_parameters c rng = B.generate_random_parameters c' rng

/-- Modelled from the spec: the proof backend is an external collaborator
assumed correct (§6), and the relation's `ConstraintSynthesizer` is not
under src/.  This is Groth16 completeness for the relation: for keys
produced by a shape-fixing setup (shape is content-independent, §4.3),
every instance whose witness satisfies the relation's predicate `sat`
admits a proof that the prepared verifying key accepts against that
instance's public input vector. -/
def Groth16CompleteFor (B : Groth16Backend) (sat : ActivityCircuit → Prop) : Prop :=
  ∀ c0 c params rng rng',
    B.generate_random_parameters c0 rng = some params → sat c →
    ∃ proof, B.create_random_proof c params rng' = some proof ∧
      B.verify (B.prepare_verifying_key (B.vkOf params)) proof
        (ActivityCircuit.publicInputs c) = some true

/-- A trivial backend instance: setup and proving always succeed and the
verifier always accepts.  Used to instantiate hypotheses at concrete
inputs. -/
def unitBackend : Groth16Backend where
  Params := PUnit
  VK := PUnit
  PVK := PUnit
  Proof := PUnit
  generate_random_parameters := fun _ _ => some PUnit.unit
  vkOf := fun _ => PUnit.unit
  prepare_verifying_key := fun _ => PUnit.unit
  create_random_proof := fun _ _ _ => some PUnit.unit
  verify := fun _ _ _ => some true

/-- A backend whose prover always fails (models the `Err` branch of
`create_random_proof`). -/
def proveFailBackend : Groth16Backend where
  Params := PUnit
  VK := PUnit
  PVK := PUnit
  Proof := PUnit
  generate_random_parameters := fun _ _ => some PUnit.unit
  vkOf := fun _ => PUnit.unit
  prepare_verifying_key := fun _ => PUnit.unit
  create_random_proof := fun _ _ _ => none
  verify := fun _ _ _ => some true

/-- A backend whose verifier always reports an internal error (models the
`Err` branch of `verify_proof`, swallowed by `unwrap_or(false)`). -/
def verifyErrBackend : Groth16Backend where
  Params := PUnit
  VK := PUnit
  PVK := PUnit
  Proof := PUnit
  generate_random_parameters := fun _ _ => some PUnit.unit
  vkOf := fun _ => PUnit.unit
  prepare_verifying_key := fun _ => PUnit.unit
  create_random_proof := fun _ _ _ => some PUnit.unit
  verify := fun _ _ _ => none

/-- A backend whose verifier always rejects (cryptographic rejection,
`Ok(false)`). -/
def rejectBackend : Groth16Backend where
  Params := PUnit
  VK := PUnit
  PVK := PUnit
  Proof := PUnit
  generate_random_parameters := fun _ _ => some PUnit.unit
  vkOf := fun _ => PUnit.unit
  prepare_verifying_key := fun _ => PUnit.unit
  create_random_proof := fun _ _ _ => some PUnit.unit
  verify := fun _ _ _ => some false

/-- An all-zero 32-byte value, as used for the setup placeholder and for
concrete sample records. -/
def zeroBytes32 : List ℕ := List.replicate 32 0

/-- A concrete sample record with the given timestamp and all-zero
digests, for evaluating the pipeline at specific instants. -/
def sampleRecord (t : ℤ) : ActivityData := ⟨t, zeroBytes32, zeroBytes32⟩

/-! ### Helper lemmas -/

/-- Folding bytes in with a reduction at every step agrees with folding
them in over the unbounded naturals and reducing once at the end. -/
theorem foldl_be_mod (bs : List ℕ) (n : ℕ) :
    bs.foldl (fun acc b => (acc * 256 + b) % rBN) (n % rBN)
      = (bs.foldl (fun acc b => acc * 256 + b) n) % rBN := by
  induction bs generalizing n with
  | nil => rfl
  | cons b bs ih =>
    simp only [List.foldl_cons]
    have h : (n % rBN * 256 + b) % rBN = (n * 256 + b) % rBN :=
      Nat.ModEq.add_right b (Nat.ModEq.mul_right 256 (Nat.mod_modEq n rBN))
    rw [h]
    exact ih (n * 256 + b)

/-- The field order is positive. -/
theorem rBN_pos : 0 < rBN := by norm_num [rBN]

/-- The circuit built from a record carries the same public input vector
that `verify_activity` recomputes from the record. -/
theorem publicInputs_agree (ad : ActivityData) :
    (ActivityCircuit.new ad.timestamp ad.activity_hash ad.user_commitment).publicInputs
      = verify_activity_public_inputs ad := rfl

/-! ### Claims -/

/-- C2: the freshness check computes exactly `timestamp >= now - 30 days`:
the record reaches the proving path (proof generation invoked once) iff
`t >= now - 30d` — so the exact boundary `t = now - 30d` is fresh — and
any strictly earlier timestamp makes `verify_activity` return `false`. -/
theorem freshness_boundary_c2 (B : Groth16Backend) (entropy : ℕ)
    (v : ActivityVerifier B) (now : DateTimeUtc) (ad : ActivityData) :
    ((ActivityVerifier.verify_activity_traced B entropy v now ad).2
        = if now - Duration.days 30 ≤ ad.timestamp then 1 else 0)
    ∧ (ad.timestamp < now - Duration.days 30 →
        ActivityVerifier.verify_activity B entropy v now ad = false) := by
  constructor
  · by_cases h : ad.timestamp < now - Duration.days 30
    · simp [ActivityVerifier.verify_activity_traced, h, not_le.mpr h]
    · cases hg : ActivityVerifier.generate_proof B entropy v ad with
      | error msg => simp [ActivityVerifier.verify_activity_traced, h, hg, not_lt.mp h]
      | ok proof => simp [ActivityVerifier.verify_activity_traced, h, hg, not_lt.mp h]
  · intro h
    simp [ActivityVerifier.verify_activity, ActivityVerifier.verify_activity_traced, h]

/-- Witness for C2 at concrete inputs: the exact boundary
`t = now - 30 days` (with `now = 0`) still reaches the proving path, and a
record one day past the window is rejected. -/
theorem freshness_boundary_c2_witness :
    ((ActivityVerifier.verify_activity_traced unitBackend 0 ⟨PUnit.unit, PUnit.unit⟩ 0
        (sampleRecord (-(Duration.days 30)))).2 = 1)
    ∧ ActivityVerifier.verify_activity unitBackend 0 ⟨PUnit.unit, PUnit.unit⟩ 0
        (sampleRecord (-(Duration.days 31))) = false := by
  constructor
  · have h := (freshness_boundary_c2 unitBackend 0 ⟨PUnit.unit, PUnit.unit⟩ 0
      (sampleRecord (-(Duration.days 30)))).1
    rw [h]
    decide
  · exact (freshness_boundary_c2 unitBackend 0 ⟨PUnit.unit, PUnit.unit⟩ 0
      (sampleRecord (-(Duration.days 31)))).2 (by decide)

/-- C3: a record older than the 30-day window is rejected before any
cryptographic work: the traced pipeline returns `false` with zero
proof-generation invocations. -/
theorem stale_short_circuit_c3 (B : Groth16Backend) (entropy : ℕ)
    (v : ActivityVerifier B) (now : DateTimeUtc) (ad : ActivityData)
    (h : ad.timestamp < now - Duration.days 30) :
    ActivityVerifier.verify_activity_traced B entropy v now ad = (false, 0) := by
  simp [ActivityVerifier.verify_activity_traced, h]

/-- Witness for C3: a record with `timestamp = now - 31 days` is rejected
with zero proof-generation invocations. -/
theorem stale_short_circuit_c3_witness :
    ActivityVerifier.verify_activity_traced unitBackend 0 ⟨PUnit.unit, PUnit.unit⟩ 0
      (sampleRecord (0 - Duration.days 31)) = (false, 0) :=
  stale_short_circuit_c3 unitBackend 0 ⟨PUnit.unit, PUnit.unit⟩ 0
    (sampleRecord (0 - Duration.days 31)) (by decide)

/-- C4: for every record, the public values placed in the circuit by
`ActivityCircuit::new` (timestamp via `.timestamp() as u64`, digest via
`from_be_bytes_mod_order`) are exactly the public input vector
`verify_activity` independently recomputes: both code paths apply the
same encoding rule. -/
theorem prove_verify_encoding_agree_c4 (ad : ActivityData) :
    ((ActivityCircuit.new ad.timestamp ad.activity_hash ad.user_commitment).publicInputs
        = verify_activity_public_inputs ad)
    ∧ (ActivityCircuit.new ad.timestamp ad.activity_hash ad.user_commitment).timestamp
        = i64_as_u64 (timestampSecs ad.timestamp)
    ∧ (ActivityCircuit.new ad.timestamp ad.activity_hash ad.user_commitment).activity_hash
        = from_be_bytes_mod_order ad.activity_hash :=
  ⟨rfl, rfl, rfl⟩

/-- C7: the field encoding of a byte string is the big-endian unsigned
integer reduced modulo the scalar field's prime order; it is total and
deterministic (a function on all byte lists — values exceeding the
modulus are silently reduced, never rejected) and its result is a
canonical representative below the modulus. -/
theorem field_encoding_c7 (bs : List ℕ) :
    from_be_bytes_mod_order bs = beBytesToNat bs % rBN
    ∧ from_be_bytes_mod_order bs < rBN := by
  have h : from_be_bytes_mod_order bs = beBytesToNat bs % rBN := by
    have h0 := foldl_be_mod bs 0
    rw [Nat.zero_mod] at h0
    exact h0
  exact ⟨h, h ▸ Nat.mod_lt (beBytesToNat bs) rBN_pos⟩

/-- C5: `verify_activity` always returns a boolean and never propagates an
error: staleness, proof-generation failure, a backend error during
verification, and cryptographic rejection all collapse to the single
value `false`, with no caller-visible distinction of the cause. -/
theorem error_collapse_c5 (B : Groth16Backend) (entropy : ℕ)
    (v : ActivityVerifier B) (now : DateTimeUtc) (ad : ActivityData) :
    (ad.timestamp < now - Duration.days 30 →
        ActivityVerifier.verify_activity B entropy v now ad = false)
    ∧ (∀ msg, ActivityVerifier.generate_proof B entropy v ad = .error msg →
        ActivityVerifier.verify_activity B entropy v now ad = false)
    ∧ (∀ proof, ActivityVerifier.generate_proof B entropy v ad = .ok proof →
        B.verify v.verifying_key proof (verify_activity_public_inputs ad) = none →
        ActivityVerifier.verify_activity B entropy v now ad = false)
    ∧ (∀ proof, ActivityVerifier.generate_proof B entropy v ad = .ok proof →
        B.verify v.verifying_key proof (verify_activity_public_inputs ad) = some false →
        ActivityVerifier.verify_activity B entropy v now ad = false) := by
  refine ⟨?_, ?_, ?_, ?_⟩
  · intro h
    simp [ActivityVerifier.verify_activity, ActivityVerifier.verify_activity_traced, h]
  · intro msg hg
    by_cases h : ad.timestamp < now - Duration.days 30
    · simp [ActivityVerifier.verify_activity, ActivityVerifier.verify_activity_traced, h]
    · simp [ActivityVerifier.verify_activity, ActivityVerifier.verify_activity_traced, h, hg]
  · intro proof hg hv
    by_cases h : ad.timestamp < now - Duration.days 30
    · simp [ActivityVerifier.verify_activity, ActivityVerifier.verify_activity_traced, h]
    · simp [ActivityVerifier.verify_activity, ActivityVerifier.verify_activity_traced, h, hg,
        ActivityVerifier.verify_proof, hv]
  · intro proof hg hv
    by_cases h : ad.timestamp < now - Duration.days 30
    · simp [ActivityVerifier.verify_activity, ActivityVerifier.verify_activity_traced, h]
    · simp [ActivityVerifier.verify_activity, ActivityVerifier.verify_activity_traced, h, hg,
        ActivityVerifier.verify_proof, hv]

/-- Witness for C5: each of the four rejection causes evaluated at a
concrete record — a stale record, a backend whose prover fails, a backend
whose verifier errors, and a backend whose verifier rejects — all yield
exactly `false`. -/
theorem error_collapse_c5_witness :
    ActivityVerifier.verify_activity unitBackend 0 ⟨PUnit.unit, PUnit.unit⟩ 0
      (sampleRecord (-(Duration.days 32))) = false
    ∧ ActivityVerifier.verify_activity proveFailBackend 0 ⟨PUnit.unit, PUnit.unit⟩ 0
        (sampleRecord 0) = false
    ∧ ActivityVerifier.verify_activity verifyErrBackend 0 ⟨PUnit.unit, PUnit.unit⟩ 0
        (sampleRecord 0) = false
    ∧ ActivityVerifier.verify_activity rejectBackend 0 ⟨PUnit.unit, PUnit.unit⟩ 0
        (sampleRecord 0) = false := by
  refine ⟨?_, ?_, ?_, ?_⟩
  · exact (error_collapse_c5 unitBackend 0 ⟨PUnit.unit, PUnit.unit⟩ 0
      (sampleRecord (-(Duration.days 32)))).1 (by decide)
  · exact (error_collapse_c5 proveFailBackend 0 ⟨PUnit.unit, PUnit.unit⟩ 0
      (sampleRecord 0)).2.1 "Failed to generate proof" rfl
  · exact (error_collapse_c5 verifyErrBackend 0 ⟨PUnit.unit, PUnit.unit⟩ 0
      (sampleRecord 0)).2.2.1 PUnit.unit rfl rfl
  · exact (error_collapse_c5 rejectBackend 0 ⟨PUnit.unit, PUnit.unit⟩ 0
      (sampleRecord 0)).2.2.2 PUnit.unit rfl rfl

/-- C6: when the freshness gate passes and a proof is generated, the
verification call receives exactly the two-element ordered vector
`[timestamp as field element, activity_digest as field element]`,
recomputed from the record alone (the vector is a function of the record,
not of the engine's internal state). -/
theorem public_input_vector_c6 (B : Groth16Backend) (entropy : ℕ)
    (v : ActivityVerifier B) (now : DateTimeUtc) (ad : ActivityData) (proof : B.Proof)
    (hfresh : ¬ ad.timestamp < now - Duration.days 30)
    (hgen : ActivityVerifier.generate_proof B entropy v ad = .ok proof) :
    ActivityVerifier.verify_activity B entropy v now ad
      = ActivityVerifier.verify_proof B v proof (verify_activity_public_inputs ad)
    ∧ verify_activity_public_inputs ad
      = [u64ToFr (i64_as_u64 (timestampSecs ad.timestamp)),
         from_be_bytes_mod_order ad.activity_hash] := by
  refine ⟨?_, rfl⟩
  simp [ActivityVerifier.verify_activity, ActivityVerifier.verify_activity_traced, hfresh, hgen]

/-- Witness for C6 at a concrete fresh record and trivial backend. -/
theorem public_input_vector_c6_witness :
    ActivityVerifier.verify_activity unitBackend 0 ⟨PUnit.unit, PUnit.unit⟩ 0
      (sampleRecord 5) = ActivityVerifier.verify_proof unitBackend ⟨PUnit.unit, PUnit.unit⟩
        PUnit.unit (verify_activity_public_inputs (sampleRecord 5))
    ∧ verify_activity_public_inputs (sampleRecord 5)
      = [u64ToFr (i64_as_u64 (timestampSecs (sampleRecord 5).timestamp)),
         from_be_bytes_mod_order (sampleRecord 5).activity_hash] :=
  public_input_vector_c6 unitBackend 0 ⟨PUnit.unit, PUnit.unit⟩ 0 (sampleRecord 5)
    PUnit.unit (by decide) rfl

/-- C8: the key pair is never mutated: the state-passing forms of the
three `&self` methods return the verifier unchanged, and a repeated
`verify_activity` call on the state returned by a first call (even under
different ambient entropy) produces the same boolean. -/
theorem keypair_immutable_c8 (B : Groth16Backend) (entropy entropy' : ℕ)
    (v : ActivityVerifier B) (now : DateTimeUtc) (ad : ActivityData) :
    (ActivityVerifier.generate_proof_st B entropy v ad).2 = v
    ∧ (∀ proof public_inputs,
        (ActivityVerifier.verify_proof_st B v proof public_inputs).2 = v)
    ∧ (ActivityVerifier.verify_activity_st B entropy v now ad).2 = v
    ∧ (ActivityVerifier.verify_activity_st B entropy'
         (ActivityVerifier.verify_activity_st B entropy v now ad).2 now ad).1
        = (ActivityVerifier.verify_activity_st B entropy v now ad).1 :=
  ⟨rfl, fun _ _ => rfl, rfl, rfl⟩

/-- C9: a pre-epoch timestamp (negative seconds) is not rejected or
clamped: both the circuit construction and the recomputed public input
encode it by the wrapping cast `as u64`, i.e. as the huge value
`secs + 2^64`, which is at least `2^63`. -/
theorem negative_timestamp_wrap_c9 (ad : ActivityData)
    (hneg : timestampSecs ad.timestamp < 0)
    (hlo : -(2 ^ 63 : ℤ) ≤ timestampSecs ad.timestamp) :
    ((ActivityCircuit.new ad.timestamp ad.activity_hash ad.user_commitment).timestamp
        = (timestampSecs ad.timestamp + 2 ^ 64).toNat)
    ∧ 2 ^ 63 ≤ (ActivityCircuit.new ad.timestamp ad.activity_hash ad.user_commitment).timestamp
    ∧ verify_activity_public_inputs ad
        = [u64ToFr ((timestampSecs ad.timestamp + 2 ^ 64).toNat),
           from_be_bytes_mod_order ad.activity_hash] := by
  have h64 : (2 : ℤ) ^ 64 = 18446744073709551616 := by norm_num
  have h63 : (2 : ℤ) ^ 63 = 9223372036854775808 := by norm_num
  have h63n : (2 : ℕ) ^ 63 = 9223372036854775808 := by norm_num
  rw [h63] at hlo
  have key : i64_as_u64 (timestampSecs ad.timestamp)
      = (timestampSecs ad.timestamp + 2 ^ 64).toNat := by
    rw [h64]
    unfold i64_as_u64
    omega
  refine ⟨key, ?_, ?_⟩
  · show 2 ^ 63 ≤ i64_as_u64 (timestampSecs ad.timestamp)
    rw [h63n]
    unfold i64_as_u64
    omega
  · show [u64ToFr (i64_as_u64 (timestampSecs ad.timestamp)),
        from_be_bytes_mod_order ad.activity_hash] = _
    rw [key]

/-- Witness for C9: a record one nanosecond before the epoch has
`timestamp() == -1`, which both paths encode as `2^64 - 1`. -/
theorem negative_timestamp_wrap_c9_witness :
    ((ActivityCircuit.new (sampleRecord (-1)).timestamp (sampleRecord (-1)).activity_hash
        (sampleRecord (-1)).user_commitment).timestamp
      = (timestampSecs (sampleRecord (-1)).timestamp + 2 ^ 64).toNat)
    ∧ 2 ^ 63 ≤ (ActivityCircuit.new (sampleRecord (-1)).timestamp
        (sampleRecord (-1)).activity_hash (sampleRecord (-1)).user_commitment).timestamp
    ∧ verify_activity_public_inputs (sampleRecord (-1))
        = [u64ToFr ((timestampSecs (sampleRecord (-1)).timestamp + 2 ^ 64).toNat),
           from_be_bytes_mod_order (sampleRecord (-1)).activity_hash] :=
  negative_timestamp_wrap_c9 (sampleRecord (-1)) (by decide) (by decide)

/-- C10: setup and proof generation both reseed the fixed-seed test
generator on every call, so — given that the backend's key generation
depends only on the relation shape and the generator state (§4.3) — they
are deterministic: any two calls to `ActivityVerifier::new` (under any
ambient entropy, at any two instants) produce identical key pairs, and
any two `generate_proof` calls for a fixed verifier and record produce
identical proofs. -/
theorem deterministic_setup_prove_c10 (B : Groth16Backend)
    (hShape : SetupShapeIndependent B) (e1 e2 : ℕ) (now1 now2 : DateTimeUtc) :
    ActivityVerifier.new B e1 now1 = ActivityVerifier.new B e2 now2
    ∧ ∀ (v : ActivityVerifier B) (ad : ActivityData),
        ActivityVerifier.generate_proof B e1 v ad
          = ActivityVerifier.generate_proof B e2 v ad := by
  constructor
  · unfold ActivityVerifier.new
    simp only [test_rng]
    rw [hShape (ActivityCircuit.new now1 (List.replicate 32 0) (List.replicate 32 0))
      (ActivityCircuit.new now2 (List.replicate 32 0) (List.replicate 32 0)) 0]
  · intro v ad
    rfl

/-- Witness for C10: with the trivial backend (whose setup is manifestly
shape-only), two constructions under different entropy and at different
instants agree, as do two proof generations under different entropy. -/
theorem deterministic_setup_prove_c10_witness :
    ActivityVerifier.new unitBackend 1 5 = ActivityVerifier.new unitBackend 2 7
    ∧ ActivityVerifier.generate_proof unitBackend 1 ⟨PUnit.unit, PUnit.unit⟩
        (sampleRecord 3)
      = ActivityVerifier.generate_proof unitBackend 2 ⟨PUnit.unit, PUnit.unit⟩
        (sampleRecord 3) :=
  ⟨(deterministic_setup_prove_c10 unitBackend (fun _ _ _ => rfl) 1 2 5 7).1,
   (deterministic_setup_prove_c10 unitBackend (fun _ _ _ => rfl) 1 2 5 7).2
     ⟨PUnit.unit, PUnit.unit⟩ (sampleRecord 3)⟩

/-- C1: honest-prover completeness.  If the backend satisfies Groth16
completeness for the relation's predicate `sat`, the verifier was built
by a successful setup, the record's timestamp is within the 30-day
window, and the record's `user_commitment` satisfies the predicate
against `activity_digest` (i.e. `sat` holds of the circuit built from the
record), then `verify_activity` returns `true`. -/
theorem honest_completeness_c1 (B : Groth16Backend) (sat : ActivityCircuit → Prop)
    (hComplete : Groth16CompleteFor B sat) (e0 e : ℕ) (now0 now : DateTimeUtc)
    (v : ActivityVerifier B) (ad : ActivityData)
    (hnew : ActivityVerifier.new B e0 now0 = some v)
    (hfresh : now - Duration.days 30 ≤ ad.timestamp)
    (hsat : sat (ActivityCircuit.new ad.timestamp ad.activity_hash ad.user_commitment)) :
    ActivityVerifier.verify_activity B e v now ad = true := by
  simp only [ActivityVerifier.new] at hnew
  cases hsetup : B.generate_random_parameters
      (ActivityCircuit.new now0 (List.replicate 32 0) (List.replicate 32 0))
      (test_rng e0) with
  | none =>
    rw [hsetup] at hnew
    exact absurd hnew (by simp)
  | some params =>
    rw [hsetup] at hnew
    simp only [Option.some.injEq] at hnew
    obtain ⟨proof, hprove, hverify⟩ :=
      hComplete _ (ActivityCircuit.new ad.timestamp ad.activity_hash ad.user_commitment)
        params (test_rng e0) (test_rng e) hsetup hsat
    have hgen : ActivityVerifier.generate_proof B e v ad = .ok proof := by
      simp only [ActivityVerifier.generate_proof]
      rw [show v.proving_key = params from by rw [← hnew]]
      rw [hprove]
    have hkey : v.verifying_key = B.prepare_verifying_key (B.vkOf params) := by
      rw [← hnew]
    have hnotstale : ¬ ad.timestamp < now - Duration.days 30 := not_lt.mpr hfresh
    rw [publicInputs_agree ad] at hverify
    simp [ActivityVerifier.verify_activity, ActivityVerifier.verify_activity_traced,
      hnotstale, hgen, ActivityVerifier.verify_proof, hkey, hverify]

/-- Witness for C1: the trivial backend is complete for the trivial
predicate, and a freshly-timestamped concrete record verifies to `true`
with the key pair its constructor returns. -/
theorem honest_completeness_c1_witness :
    ActivityVerifier.verify_activity unitBackend 0 ⟨PUnit.unit, PUnit.unit⟩ 0
      (sampleRecord 0) = true :=
  honest_completeness_c1 unitBackend (fun _ => True)
    (fun _ _ _ _ _ _ _ => ⟨PUnit.unit, rfl, rfl⟩) 0 0 0 0
    ⟨PUnit.unit, PUnit.unit⟩ (sampleRecord 0) rfl (by decide) trivial
